import Mathlib

/-!
Verification development for the Fingrid Easy Setup polling integration.

The Python source under custom_components/fingrid_easy_setup is embedded
shallowly: parsed JSON values become an inductive type, Python dict update
and lookup become list operations that preserve insertion order, the
single-dataset fetch (coordinator.py, FingridDataUpdateCoordinator.
_async_fetch_dataset) becomes a total classification function over an
abstract HTTP exchange, the per-cycle update loop (FingridDataUpdateCoordinator.
_async_update_data) becomes a fold with an Except-style early exit, and the
sensor presenters (sensor.py) become pure state-update functions.
-/

namespace Fingrid

/-- Parsed JSON values, as produced by the json module of the host language.
Numbers are modelled as rationals (covering both int and float payloads). -/
inductive Json where
  | num (q : ℚ)
  | str (s : String)
  | boolean (b : Bool)
  | null
  | arr (xs : List Json)
  | obj (fields : List (String × Json))

/-- Python dict lookup (`d.get(k)` / `k in d` combined into an Option).
Parsed JSON objects keep the last occurrence of a duplicated key, so the
lookup returns the last binding of the key. -/
def pyGet {α : Type} : List (String × α) → String → Option α
  | [], _ => none
  | p :: rest, k =>
      match pyGet rest k with
      | some v => some v
      | none => if p.1 == k then some p.2 else none

/-- Python dict item assignment (`d[k] = v`): replaces the value of an
existing key in place, otherwise appends the new binding at the end. -/
def dictInsert {α : Type} : List (String × α) → String → α → List (String × α)
  | [], k, v => [(k, v)]
  | p :: rest, k, v => if p.1 == k then (k, v) :: rest else p :: dictInsert rest k v

/-- Outcome of one call of FingridDataUpdateCoordinator._async_fetch_dataset:
the coroutine returns a dict (the latest entry), returns None (no data), or
raises one of the three typed exceptions from exceptions.py. -/
inductive FetchOutcome where
  | ok (obs : Json)
  | noData
  | errAuth
  | errRate
  | errApi

/-- One HTTP exchange as seen by the fetch. A status response carries the
parsed JSON body when the body parses (`some j`) and `none` when reading or
parsing the body raises. Exactly one exchange happens per fetch call: the
source issues a single GET and never retries internally. -/
inductive HttpResponse where
  | status (code : Nat) (body : Option Json)
  | networkError
  | timeout

/-- The body of the try block of _async_fetch_dataset (coordinator.py lines
75-104), before the exception handlers of that same try run: HTTP 200 with a
dict body holding a non-empty "data" list returns its first element; HTTP
200 otherwise returns None; 401/403 raise FingridApiAuthError (line 92); 429
raises FingridApiRateLimitError (line 95); any other status raises
FingridApiError (line 104). A network error or timeout raises the underlying
aiohttp.ClientError or asyncio.TimeoutError, which the dedicated handlers at
lines 106-111 wrap into FingridApiError; the model folds those two arms to
the generic error kind directly. An unparsable 200 body makes
response.json() raise, which the catch-all wraps into FingridApiError as
well. -/
def fetchTryBody : HttpResponse → FetchOutcome
  | .networkError => .errApi
  | .timeout => .errApi
  | .status code body =>
      if code = 200 then
        match body with
        | none => .errApi
        | some api_response =>
            match api_response with
            | .obj fields =>
                match pyGet fields "data" with
                | some (.arr (d :: _)) => .ok d
                | _ => .noData
            | _ => .noData
      else if code = 401 ∨ code = 403 then .errAuth
      else if code = 429 then .errRate
      else .errApi

/-- Embedding of _async_fetch_dataset as a whole (coordinator.py lines
63-114). The typed raises at lines 92, 95 and 104 sit inside the try block
whose handlers follow at lines 106-114: FingridApiAuthError and
FingridApiRateLimitError derive from HomeAssistantError, hence from
Exception, and are neither aiohttp.ClientError nor asyncio.TimeoutError, so
the catch-all handler at line 112 intercepts them and re-raises
FingridApiError. Every failure therefore escapes the fetch as the generic
error kind; only the return paths of the 200 branch are unaffected. -/
def async_fetch_dataset (r : HttpResponse) : FetchOutcome :=
  match fetchTryBody r with
  | .ok d => .ok d
  | .noData => .noData
  | .errAuth => .errApi
  | .errRate => .errApi
  | .errApi => .errApi

/-- Ways one poll cycle of _async_update_data can abort: the first auth error
raises ConfigEntryAuthFailed, and reading the never-assigned loop local
`result` (or the undefined name `results` in the final guard) raises
NameError. -/
inductive CycleAbort where
  | authFailed
  | nameError

/-- Local state of the update loop in _async_update_data: the data_results
dict under construction, the loop variable `result` (`none` while it has
never been assigned, `some rv` once bound to a fetch return value), and the
auth_failure_raised flag. -/
structure LoopState where
  data_results : List (String × Option Json)
  lastResult : Option (Option Json)
  auth_failure_raised : Bool

/-- State at loop entry (coordinator.py lines 129-130). -/
def initState : LoopState := ⟨[], none, false⟩

/-- The try/except/else block of one loop iteration (coordinator.py lines
132-151). An auth error escalates as ConfigEntryAuthFailed unless the
auth_failure_raised flag is already set, in which case it is swallowed and
the dataset recorded as None; rate-limit and generic API errors record None
and continue; a normal return binds the loop variable and records the value.
The fetch only raises the three typed exceptions, so the bare except arm at
line 143 is unreachable and behaves like the typed arm anyway. -/
def tryPhase (dataset_id : String) (o : FetchOutcome) (st : LoopState) :
    Except CycleAbort LoopState :=
  match o with
  | .errAuth =>
      if st.auth_failure_raised then
        .ok { st with auth_failure_raised := true,
                      data_results := dictInsert st.data_results dataset_id none }
      else .error .authFailed
  | .errRate => .ok { st with data_results := dictInsert st.data_results dataset_id none }
  | .errApi => .ok { st with data_results := dictInsert st.data_results dataset_id none }
  | .ok d => .ok { st with lastResult := some (some d),
                           data_results := dictInsert st.data_results dataset_id (some d) }
  | .noData => .ok { st with lastResult := some none,
                             data_results := dictInsert st.data_results dataset_id none }

/-- The block after the pacing sleep (coordinator.py lines 155-174). It reads
the loop variable `result`: if no iteration has ever assigned it, the read
raises NameError. Otherwise the bound value is a dict or None returned by
the fetch, never an exception instance, so the isinstance arms at lines
155-169 are all false and the remaining arms (lines 170-174) store the bound
value, stale or not, under the current dataset id. -/
def postPhase (dataset_id : String) (st : LoopState) : Except CycleAbort LoopState :=
  match st.lastResult with
  | none => .error .nameError
  | some rv => .ok { st with data_results := dictInsert st.data_results dataset_id rv }

/-- One full iteration of the update loop for one enabled dataset id. -/
def loopStep (p : String × FetchOutcome) (st : LoopState) : Except CycleAbort LoopState :=
  (tryPhase p.1 p.2 st).bind (postPhase p.1)

/-- The whole update loop over the enabled dataset ids, each paired with the
outcome its fetch produces in this cycle. -/
def loopRun : List (String × FetchOutcome) → LoopState → Except CycleAbort LoopState
  | [], st => .ok st
  | p :: rest, st => (loopStep p st).bind (loopRun rest)

/-- Result of one whole poll cycle. -/
inductive CycleResult where
  | snapshot (data : List (String × Option Json))
  | authFailed
  | nameError
  | updateFailed

/-- Embedding of _async_update_data (coordinator.py lines 117-184) applied to
the enabled dataset ids paired with their fetch outcomes for this cycle.
After the loop, the guard at line 176 tests dict emptiness of data_results;
inside it, line 180 evaluates the undefined name `results`, raising NameError
before the UpdateFailed at line 181 could ever be constructed. -/
def async_update_data (fetches : List (String × FetchOutcome)) : CycleResult :=
  match loopRun fetches initState with
  | .error .authFailed => .authFailed
  | .error .nameError => .nameError
  | .ok st =>
      if st.data_results.isEmpty && !fetches.isEmpty then
        if st.auth_failure_raised then .snapshot st.data_results
        else .nameError
      else .snapshot st.data_results

/-- Mapping for power system states, dataset 209 (sensor.py lines 32-38). -/
def POWER_SYSTEM_STATE_MAP : List (Int × String) :=
  [(1, "Normal"), (2, "Endangered"), (3, "Disturbed"), (4, "Blackout"), (5, "Restoration")]

/-- Fallback label when a power system state code is unmapped (sensor.py line 40). -/
def POWER_SYSTEM_STATE_UNKNOWN : String := "Unknown"

/-- Mapping for electricity shortage statuses, dataset 336 (sensor.py lines 43-48). -/
def ELECTRICITY_SHORTAGE_STATUS_MAP : List (Int × String) :=
  [(0, "Normal"), (1, "Electricity shortage possible"),
   (2, "High risk of electricity shortage"), (3, "Electricity shortage")]

/-- Fallback label when a shortage status code is unmapped (sensor.py line 49). -/
def ELECTRICITY_SHORTAGE_STATUS_UNKNOWN : String := "Unknown"

/-- Python dict.get with a default, for the fixed integer-keyed label tables
(their keys are distinct, so first match equals only match). -/
def mapGet (m : List (Int × String)) (k : Int) (dflt : String) : String :=
  match m.find? (fun p => p.1 == k) with
  | some p => p.2
  | none => dflt

/-- Python int() applied to an int or float value: truncation toward zero. -/
def pyTrunc (q : ℚ) : Int := if q < 0 then ⌈q⌉ else ⌊q⌋

/-- The isinstance(value, (int, float)) test of the presenters together with
the int() conversion: JSON numbers pass, and JSON booleans pass as well
because the host language treats booleans as an integer subtype (true is 1,
false is 0); every other value fails the test. -/
def jsonNumericValue : Json → Option ℚ
  | .num q => some q
  | .boolean b => some (if b then 1 else 0)
  | _ => none

/-- The mutable presentation state of one sensor entity: _attr_native_value
and _attr_extra_state_attributes. -/
structure SensorState where
  native : Option Json
  attrs : List (String × Json)

/-- Embedding of FingridSensor._update_state (sensor.py lines 113-126), the
base presenter used by the grid frequency sensor: the native value becomes
the raw "value" field, and the api_timestamp attribute is set from "endTime"
when present, else from "startTime" when present, preserving the other
attributes. -/
def baseUpdateState (dataset_data : List (String × Json)) (st : SensorState) : SensorState :=
  let st1 : SensorState := { st with native := pyGet dataset_data "value" }
  match pyGet dataset_data "endTime" with
  | some t => { st1 with attrs := dictInsert st1.attrs "api_timestamp" t }
  | none =>
      match pyGet dataset_data "startTime" with
      | some t => { st1 with attrs := dictInsert st1.attrs "api_timestamp" t }
      | none => st1

/-- Embedding of FingridPowerSystemStateSensor._update_state (sensor.py lines
149-159): a numeric "value" is truncated to an integer, decoded through
POWER_SYSTEM_STATE_MAP with the Unknown fallback, and the truncated integer
is stored in the raw_value attribute; otherwise only the native value is set
to Unknown. -/
def powerUpdateState (dataset_data : List (String × Json)) (st : SensorState) : SensorState :=
  match (pyGet dataset_data "value").bind jsonNumericValue with
  | some q =>
      { native := some (.str (mapGet POWER_SYSTEM_STATE_MAP (pyTrunc q) POWER_SYSTEM_STATE_UNKNOWN)),
        attrs := dictInsert st.attrs "raw_value" (.num ((pyTrunc q : Int) : ℚ)) }
  | none => { st with native := some (.str POWER_SYSTEM_STATE_UNKNOWN) }

/-- Embedding of FingridElectricityShortageSensor._update_state (sensor.py
lines 202-214), identical in shape to the power system presenter but using
ELECTRICITY_SHORTAGE_STATUS_MAP. -/
def shortageUpdateState (dataset_data : List (String × Json)) (st : SensorState) : SensorState :=
  match (pyGet dataset_data "value").bind jsonNumericValue with
  | some q =>
      { native := some (.str (mapGet ELECTRICITY_SHORTAGE_STATUS_MAP (pyTrunc q)
          ELECTRICITY_SHORTAGE_STATUS_UNKNOWN)),
        attrs := dictInsert st.attrs "raw_value" (.num ((pyTrunc q : Int) : ℚ)) }
  | none => { st with native := some (.str ELECTRICITY_SHORTAGE_STATUS_UNKNOWN) }

/-- Embedding of FingridSensor.available (sensor.py lines 82-90): the host
side availability (CoordinatorEntity.available, last_update_success) AND the
coordinator data is not None AND the dataset id is a key of it AND its value
is not None. -/
def sensorAvailable (host_available : Bool)
    (data : Option (List (String × Option Json))) (dataset_id : String) : Bool :=
  host_available &&
    (match data with
     | none => false
     | some snap =>
         match pyGet snap dataset_id with
         | some (some _) => true
         | _ => false)

/-- What the host shows for an entity. -/
inductive RenderedState where
  | unavailable
  | value (v : Option Json)

/-- Modelled from the spec: the host runtime (outside src/) renders an entity
whose available property is false as the literal state "unavailable",
regardless of the stored native value (spec sections 4.3 and 7). -/
def renderedState (avail : Bool) (native : Option Json) : RenderedState :=
  if avail then .value native else .unavailable

lemma dictInsert_idem {α : Type} (a : List (String × α)) (k : String) (v : α) :
    dictInsert (dictInsert a k v) k v = dictInsert a k v := by
  induction a with
  | nil => simp [dictInsert]
  | cons p rest ih =>
      by_cases h : (p.1 == k) = true
      · simp [dictInsert, h]
      · simp only [dictInsert, h]
        rw [if_neg (by simp [h]), if_neg (by simp [h]), ih]

lemma tryPhase_af (ds : String) (o : FetchOutcome) (st s : LoopState)
    (h : tryPhase ds o st = .ok s) (haf : st.auth_failure_raised = false) :
    s.auth_failure_raised = false := by
  cases o <;> simp [tryPhase, haf] at h <;> simp [← h, haf]

lemma postPhase_af (ds : String) (st s : LoopState)
    (h : postPhase ds st = .ok s) (haf : st.auth_failure_raised = false) :
    s.auth_failure_raised = false := by
  cases hr : st.lastResult <;> simp [postPhase, hr] at h <;> simp [← h, haf]

lemma loopStep_af (p : String × FetchOutcome) (st s : LoopState)
    (h : loopStep p st = .ok s) (haf : st.auth_failure_raised = false) :
    s.auth_failure_raised = false := by
  unfold loopStep at h
  cases ht : tryPhase p.1 p.2 st with
  | error e => rw [ht] at h; simp [Except.bind] at h
  | ok s1 =>
      rw [ht] at h; simp [Except.bind] at h
      exact postPhase_af p.1 s1 s h (tryPhase_af p.1 p.2 st s1 ht haf)

lemma loopRun_af (l : List (String × FetchOutcome)) (st st' : LoopState)
    (h : loopRun l st = .ok st') (haf : st.auth_failure_raised = false) :
    st'.auth_failure_raised = false := by
  induction l generalizing st with
  | nil => simp [loopRun] at h; simp [← h, haf]
  | cons p rest ih =>
      unfold loopRun at h
      cases hs : loopStep p st with
      | error e => rw [hs] at h; simp [Except.bind] at h
      | ok s1 =>
          rw [hs] at h; simp [Except.bind] at h
          exact ih s1 h (loopStep_af p st s1 hs haf)

lemma loopRun_append (a b : List (String × FetchOutcome)) (st : LoopState) :
    loopRun (a ++ b) st = (loopRun a st).bind (loopRun b) := by
  induction a generalizing st with
  | nil => simp [loopRun, Except.bind]
  | cons p rest ih =>
      cases hs : loopStep p st <;>
        simp [loopRun, hs, Except.bind, ih]

/-- C4: a 200 response whose JSON body is a dict with a non-empty "data" list
yields the first element of that list as the observation; a 200 response
whose parsed body is malformed (not a dict, no "data" key, a "data" value
that is not a list, or an empty list) yields no data (absent), not an
error. -/
theorem C4_success_body_parsing :
    (∀ fields d rest, pyGet fields "data" = some (.arr (d :: rest)) →
        async_fetch_dataset (.status 200 (some (.obj fields))) = .ok d) ∧
    (∀ j, (∀ fields, j ≠ Json.obj fields) →
        async_fetch_dataset (.status 200 (some j)) = .noData) ∧
    (∀ fields, pyGet fields "data" = none →
        async_fetch_dataset (.status 200 (some (.obj fields))) = .noData) ∧
    (∀ fields v, pyGet fields "data" = some v → (∀ xs, v ≠ Json.arr xs) →
        async_fetch_dataset (.status 200 (some (.obj fields))) = .noData) ∧
    (∀ fields, pyGet fields "data" = some (.arr []) →
        async_fetch_dataset (.status 200 (some (.obj fields))) = .noData) := by
  refine ⟨?_, ?_, ?_, ?_, ?_⟩
  · intro fields d rest h
    simp [async_fetch_dataset, fetchTryBody, h]
  · intro j h
    cases j <;> simp [async_fetch_dataset, fetchTryBody]
    exact absurd rfl (h _)
  · intro fields h
    simp [async_fetch_dataset, fetchTryBody, h]
  · intro fields v h hv
    cases v <;> simp [async_fetch_dataset, fetchTryBody, h]
    exact absurd rfl (hv _)
  · intro fields h
    simp [async_fetch_dataset, fetchTryBody, h]

/-- Witness for C4 at concrete responses. -/
theorem C4_witness :
    async_fetch_dataset (.status 200 (some (.obj [("data", .arr [.num 4])]))) = .ok (.num 4) ∧
    async_fetch_dataset (.status 200 (some (.arr []))) = .noData ∧
    async_fetch_dataset (.status 200 (some (.obj [("other", .null)]))) = .noData ∧
    async_fetch_dataset (.status 200 (some (.obj [("data", .num 1)]))) = .noData ∧
    async_fetch_dataset (.status 200 (some (.obj [("data", .arr [])]))) = .noData := by
  refine ⟨?_, ?_, ?_, ?_, ?_⟩
  · exact C4_success_body_parsing.1 [("data", .arr [.num 4])] (.num 4) [] rfl
  · exact C4_success_body_parsing.2.1 (.arr []) (fun fields => by simp)
  · exact C4_success_body_parsing.2.2.1 [("other", .null)] rfl
  · exact C4_success_body_parsing.2.2.2.1 [("data", .num 1)] (.num 1) rfl (fun xs => by simp)
  · exact C4_success_body_parsing.2.2.2.2 [("data", .arr [])] rfl

/-- C5 does not hold on the code: the try block of the fetch raises the
typed auth and rate-limit exceptions for 401/403 and 429, but the catch-all
handler of the same try block (line 112) intercepts them and re-raises
FingridApiError, so every failure escapes the fetch as the generic error and
no input ever yields the auth or rate-limit kind from the fetch as a
whole. -/
theorem C5_typed_errors_never_escape :
    fetchTryBody (.status 401 none) = .errAuth ∧
    fetchTryBody (.status 403 none) = .errAuth ∧
    fetchTryBody (.status 429 none) = .errRate ∧
    async_fetch_dataset (.status 401 none) = .errApi ∧
    async_fetch_dataset (.status 403 none) = .errApi ∧
    async_fetch_dataset (.status 429 none) = .errApi ∧
    async_fetch_dataset (.status 500 none) = .errApi ∧
    async_fetch_dataset .networkError = .errApi ∧
    async_fetch_dataset .timeout = .errApi ∧
    (∀ r, async_fetch_dataset r ≠ FetchOutcome.errAuth ∧
          async_fetch_dataset r ≠ FetchOutcome.errRate) := by
  refine ⟨rfl, rfl, rfl, rfl, rfl, rfl, rfl, rfl, rfl, ?_⟩
  intro r
  cases h : fetchTryBody r <;> simp [async_fetch_dataset, h]

/-- C6: the categorical presenters truncate a numeric raw value to an integer
and decode it through the fixed table of their dataset, storing the truncated
integer as the raw_value attribute; value 2 decodes to Endangered in the
power-system table, value 1 to Electricity shortage possible in the shortage
table, the unmapped value 99 decodes to Unknown in both tables, and a
non-numeric value decodes to Unknown. -/
theorem C6_categorical_decode :
    (∀ st d q, (pyGet d "value").bind jsonNumericValue = some q →
        (powerUpdateState d st).native
          = some (.str (mapGet POWER_SYSTEM_STATE_MAP (pyTrunc q) POWER_SYSTEM_STATE_UNKNOWN)) ∧
        (powerUpdateState d st).attrs
          = dictInsert st.attrs "raw_value" (.num ((pyTrunc q : Int) : ℚ)) ∧
        (shortageUpdateState d st).native
          = some (.str (mapGet ELECTRICITY_SHORTAGE_STATUS_MAP (pyTrunc q)
              ELECTRICITY_SHORTAGE_STATUS_UNKNOWN)) ∧
        (shortageUpdateState d st).attrs
          = dictInsert st.attrs "raw_value" (.num ((pyTrunc q : Int) : ℚ))) ∧
    (∀ st, (powerUpdateState [("value", .num 2)] st).native = some (.str "Endangered")) ∧
    (∀ st, (shortageUpdateState [("value", .num 1)] st).native
        = some (.str "Electricity shortage possible")) ∧
    (∀ st, (powerUpdateState [("value", .num 99)] st).native = some (.str "Unknown") ∧
           (shortageUpdateState [("value", .num 99)] st).native = some (.str "Unknown")) ∧
    (∀ st d v, pyGet d "value" = some v → jsonNumericValue v = none →
        (powerUpdateState d st).native = some (.str "Unknown") ∧
        (shortageUpdateState d st).native = some (.str "Unknown")) := by
  refine ⟨?_, fun st => rfl, fun st => rfl, fun st => ⟨rfl, rfl⟩, ?_⟩
  · intro st d q h
    refine ⟨?_, ?_, ?_, ?_⟩ <;> simp [powerUpdateState, shortageUpdateState, h]
  · intro st d v h hv
    constructor <;> simp [powerUpdateState, shortageUpdateState, h, hv,
      POWER_SYSTEM_STATE_UNKNOWN, ELECTRICITY_SHORTAGE_STATUS_UNKNOWN]

/-- Witness for C6 at concrete observations. -/
theorem C6_witness :
    (powerUpdateState [("value", .num 4)] ⟨none, []⟩).attrs
      = dictInsert ([] : List (String × Json)) "raw_value" (.num ((pyTrunc 4 : Int) : ℚ)) ∧
    (powerUpdateState [("value", .str "x")] ⟨none, []⟩).native = some (.str "Unknown") ∧
    (shortageUpdateState [("value", .str "x")] ⟨none, []⟩).native = some (.str "Unknown") := by
  refine ⟨?_, ?_, ?_⟩
  · exact (C6_categorical_decode.1 ⟨none, []⟩ [("value", .num 4)] 4 rfl).2.1
  · exact (C6_categorical_decode.2.2.2.2 ⟨none, []⟩ [("value", .str "x")] (.str "x") rfl rfl).1
  · exact (C6_categorical_decode.2.2.2.2 ⟨none, []⟩ [("value", .str "x")] (.str "x") rfl rfl).2

/-- C7: a dataset absent from the current snapshot (coordinator data missing,
key missing, or key mapped to None) makes the sensor unavailable, so its
presented state is the literal "unavailable" and never a value, stale or
otherwise. -/
theorem C7_absent_renders_unavailable :
    ∀ host data ds native,
      (data = none ∨ ∃ snap, data = some snap ∧
          (pyGet snap ds = none ∨ pyGet snap ds = some none)) →
      renderedState (sensorAvailable host data ds) native = .unavailable ∧
      ∀ v, renderedState (sensorAvailable host data ds) native ≠ RenderedState.value v := by
  intro host data ds native h
  have havail : sensorAvailable host data ds = false := by
    rcases h with rfl | ⟨snap, rfl, hlook | hlook⟩
    · simp [sensorAvailable]
    · simp [sensorAvailable, hlook]
    · simp [sensorAvailable, hlook]
  rw [havail]
  exact ⟨rfl, fun v hv => by simp [renderedState] at hv⟩

/-- Witness for C7: a snapshot recording dataset 209 as None makes the sensor
render unavailable even though a previous native value exists. -/
theorem C7_witness :
    renderedState (sensorAvailable true (some [("209", none)]) "209")
      (some (.str "Normal")) = .unavailable :=
  (C7_absent_renders_unavailable true (some [("209", none)]) "209" (some (.str "Normal"))
    (Or.inr ⟨[("209", none)], rfl, Or.inr rfl⟩)).1

/-- C8: every presenter state update is idempotent: applying it twice to the
same observation yields exactly the state and attributes of applying it
once. -/
theorem C8_present_idempotent :
    ∀ d st, baseUpdateState d (baseUpdateState d st) = baseUpdateState d st ∧
        powerUpdateState d (powerUpdateState d st) = powerUpdateState d st ∧
        shortageUpdateState d (shortageUpdateState d st) = shortageUpdateState d st := by
  intro d st
  refine ⟨?_, ?_, ?_⟩
  · cases he : pyGet d "endTime" <;> cases hs : pyGet d "startTime" <;>
      simp [baseUpdateState, he, hs, dictInsert_idem]
  · cases h : (pyGet d "value").bind jsonNumericValue <;>
      simp [powerUpdateState, h, dictInsert_idem]
  · cases h : (pyGet d "value").bind jsonNumericValue <;>
      simp [shortageUpdateState, h, dictInsert_idem]

/-- C10: a non-numeric raw value makes both categorical presenters set the
state to Unknown while leaving the attribute dict untouched, so a previously
stored raw_value attribute (and every other attribute) silently survives. -/
theorem C10_nonnumeric_keeps_attrs :
    ∀ d st v, pyGet d "value" = some v → jsonNumericValue v = none →
      (powerUpdateState d st).native = some (.str "Unknown") ∧
      (powerUpdateState d st).attrs = st.attrs ∧
      (shortageUpdateState d st).native = some (.str "Unknown") ∧
      (shortageUpdateState d st).attrs = st.attrs := by
  intro d st v h hv
  refine ⟨?_, ?_, ?_, ?_⟩ <;>
    simp [powerUpdateState, shortageUpdateState, h, hv,
      POWER_SYSTEM_STATE_UNKNOWN, ELECTRICITY_SHORTAGE_STATUS_UNKNOWN]

/-- Witness for C10: after a numeric update stored raw_value 3, a non-numeric
update leaves that stale raw_value in place. -/
theorem C10_witness :
    (powerUpdateState [("value", .str "x")] ⟨none, [("raw_value", .num 3)]⟩).attrs
      = [("raw_value", .num 3)] ∧
    (powerUpdateState [("value", .str "x")] ⟨none, [("raw_value", .num 3)]⟩).native
      = some (.str "Unknown") := by
  have h := C10_nonnumeric_keeps_attrs [("value", .str "x")]
    ⟨none, [("raw_value", .num 3)]⟩ (.str "x") rfl rfl
  exact ⟨h.2.1, h.1⟩

/-- C3: the first auth error of a cycle escalates immediately as the
cycle-fatal re-authentication signal, so the datasets after it are never
attempted (the result of the cycle does not depend on them); and the
swallow arm of the handler, which only runs once the auth_failure_raised
flag is set, records the dataset as absent without escalating. -/
theorem C3_first_auth_error_fatal :
    (∀ pre ds post st, loopRun pre initState = .ok st →
        async_update_data (pre ++ (ds, FetchOutcome.errAuth) :: post)
          = CycleResult.authFailed) ∧
    (∀ ds st, st.auth_failure_raised = true →
        tryPhase ds FetchOutcome.errAuth st
          = .ok { st with auth_failure_raised := true,
                          data_results := dictInsert st.data_results ds none }) := by
  constructor
  · intro pre ds post st h
    have haf : st.auth_failure_raised = false := loopRun_af pre initState st h rfl
    unfold async_update_data
    rw [loopRun_append, h]
    simp [loopRun, loopStep, tryPhase, haf, Except.bind]
  · intro ds st h
    simp [tryPhase, h]

/-- Witness for C3: an auth failure on the first dataset decides the cycle
regardless of the remaining datasets, and the swallow arm records absence
from a state whose flag is already set. -/
theorem C3_witness :
    async_update_data [("209", FetchOutcome.errAuth), ("177", FetchOutcome.ok .null)]
      = CycleResult.authFailed ∧
    tryPhase "177" FetchOutcome.errAuth ⟨[("209", some .null)], some (some .null), true⟩
      = .ok ⟨[("209", some .null), ("177", none)], some (some .null), true⟩ := by
  constructor
  · exact C3_first_auth_error_fatal.1 [] "209" [("177", FetchOutcome.ok .null)] initState rfl
  · exact C3_first_auth_error_fatal.2 "177" ⟨[("209", some .null)], some (some .null), true⟩ rfl

/-- C9: when the very first enabled dataset of a cycle fails with a
rate-limit or generic API error, the block after the pacing delay reads the
loop variable that no iteration has assigned, so the whole update cycle
aborts with NameError instead of recording the dataset as absent and
continuing. -/
theorem C9_first_dataset_error_aborts :
    ∀ ds rest,
      async_update_data ((ds, FetchOutcome.errRate) :: rest) = CycleResult.nameError ∧
      async_update_data ((ds, FetchOutcome.errApi) :: rest) = CycleResult.nameError := by
  intro ds rest
  constructor <;>
    simp [async_update_data, loopRun, loopStep, tryPhase, postPhase, initState, Except.bind]

/-- C1 does not hold on the code: with a single enabled dataset whose fetch
hits the rate limit, the cycle aborts with NameError instead of recording
the dataset as absent; and with a second dataset failing after a successful
first fetch, the stale first observation is written over the absence record
of the failed dataset, so the snapshot shows dataset 177 carrying the
observation of dataset 209. -/
theorem C1_error_downgrade_broken :
    async_update_data [("209", FetchOutcome.errRate)] = CycleResult.nameError ∧
    async_update_data [("209", FetchOutcome.ok (.obj [("value", .num 2)])),
                       ("177", FetchOutcome.errRate)]
      = CycleResult.snapshot [("209", some (.obj [("value", .num 2)])),
                              ("177", some (.obj [("value", .num 2)]))] :=
  ⟨rfl, rfl⟩

/-- C2 does not hold on the code: a cycle in which the only enabled dataset
ends absent publishes the all-absent snapshot, and no input ever produces
UpdateFailed, because the final guard tests dict emptiness (never true after
a completed loop) and its body reads an undefined name before UpdateFailed
could be constructed. -/
theorem C2_all_absent_cycle_published :
    async_update_data [("209", FetchOutcome.noData)]
      = CycleResult.snapshot [("209", none)] ∧
    ∀ fetches, async_update_data fetches ≠ CycleResult.updateFailed := by
  refine ⟨rfl, ?_⟩
  intro fetches
  unfold async_update_data
  cases hl : loopRun fetches initState with
  | error e => cases e <;> simp
  | ok st =>
      by_cases h1 : (st.data_results.isEmpty && !fetches.isEmpty) = true
      · by_cases h2 : st.auth_failure_raised = true
        · simp [h1, h2]
        · simp [h1, h2]
      · simp [h1]

end Fingrid
